import Mathlib

/-!
# virt-controller: vSphere plan builder and Migration reconciler

A shallow embedding of

* `pkg/controller/plan/builder/vsphere/builder.go` (`Builder.Secret`, `hostSecret`, `host`,
  `Mapping`, `Source`, `Tasks`), and
* `pkg/controller/migration/controller.go` (`Reconciler.Reconcile`),

followed by the properties established about them.

Conventions of the embedding.

* A Go `error` is `Option Error`; `none` is `nil`.
* A Go pointer that the code dereferences and that may be `nil` is an `Option`; a dereference
  of `nil` ends the call with `Outcome.nilDereference` (the Go runtime panic).
* Receivers and output parameters (`object`) are allocated by the caller and are taken non-nil;
  an output parameter is passed in and handed back.
* Go strings and byte slices are `String`; `string(b)` is the identity.
* A Go `map[string]string` is an association list read with `GoMap.get`.
* Collaborators outside the repository (the inventory client, the object store, `net/http`,
  `yaml.v2`) are parameters: fields of `Builder`, `Reconciler` and `Library`.
-/

namespace VirtController

/-! ## Errors -/

/-- Error values that reach the code: a plain error (`errors.New`, a transport failure), a
Kubernetes API status error carrying its reason, and the traced error of
`konveyor/controller/pkg/error`, which holds the error it wraps. -/
inductive Error where
  | plain (msg : String)
  | apiStatus (reason : String) (msg : String)
  | traced (wrapped : Error)
  deriving DecidableEq, Repr

/-- The text of `Error()`: a traced error reports the text of the error it wraps. -/
def Error.message : Error → String
  | .plain msg => msg
  | .apiStatus _ msg => msg
  | .traced wrapped => wrapped.message

namespace liberr

/-- Library `konveyor/controller/pkg/error`, `Wrap`: `nil` stays `nil`, an error that is
already traced is returned as it is, any other error is wrapped. -/
def Wrap : Option Error → Option Error
  | none => none
  | some (.traced wrapped) => some (.traced wrapped)
  | some e => some (.traced e)

/-- Library `konveyor/controller/pkg/error`, `New`: a traced error around `errors.New(msg)`. -/
def New (msg : String) : Error :=
  .traced (.plain msg)

end liberr

namespace errors

/-- Library `k8s.io/apimachinery/pkg/api/errors`, `IsNotFound`: the error is an API status
whose reason is `NotFound`. -/
def IsNotFound : Error → Bool
  | .apiStatus reason _ => reason == "NotFound"
  | _ => false

end errors

/-- The result of a call that may dereference a nil pointer. -/
inductive Outcome (α : Type) where
  | returned (a : α)
  | nilDereference
  deriving DecidableEq, Repr

/-- A Go `map[string]string` (or `map[string][]byte`). -/
abbrev GoMap := List (String × String)

/-- Indexing `m[key]`: the zero value when the key is missing. -/
def GoMap.get (m : GoMap) (key : String) : String :=
  (m.lookup key).getD ""

/-! ## Data model of the builder -/

/-- Kubernetes `core.Secret`: the two maps the builder reads and writes. -/
structure Secret where
  Data : GoMap := []
  StringData : GoMap := []
  deriving DecidableEq, Repr

/-- Kubernetes `client.ObjectKey`. -/
structure ObjectKey where
  Namespace : String
  Name : String
  deriving DecidableEq, Repr

/-- Kubernetes `core.ObjectReference`, as far as `hostSecret` reads it. -/
structure ObjectReference where
  Namespace : String := ""
  Name : String := ""
  deriving DecidableEq, Repr

/-- Modelled from the spec: `api.HostSpec` (pkg/apis/virt/v1alpha1 is not among the sources).
A host carries a reference to a credential secret. -/
structure HostSpec where
  Secret : ObjectReference := {}
  deriving DecidableEq, Repr

/-- Modelled from the spec: `api.Host` (pkg/apis/virt/v1alpha1 is not among the sources). -/
structure Host where
  Spec : HostSpec := {}
  deriving DecidableEq, Repr

/-- Modelled from the spec: `api.ProviderSpec` (pkg/apis/virt/v1alpha1 is not among the
sources); the builder reads the API endpoint URL. -/
structure ProviderSpec where
  URL : String := ""
  deriving DecidableEq, Repr

/-- Modelled from the spec: `api.Provider` (pkg/apis/virt/v1alpha1 is not among the sources). -/
structure Provider where
  Spec : ProviderSpec := {}
  deriving DecidableEq, Repr

/-- Modelled from the spec: the host reference of an inventory VM (the web/vsphere package is
not among the sources). -/
structure Ref where
  ID : String := ""
  deriving DecidableEq, Repr

/-- Modelled from the spec: a disk of an inventory VM (the web/vsphere package is not among
the sources): an identifying file name and a byte capacity (`int64`). -/
structure Disk where
  File : String := ""
  Capacity : Int := 0
  deriving DecidableEq, Repr

/-- Modelled from the spec: the inventory VM descriptor `vsphere.VM` (the web/vsphere package
is not among the sources): a UUID, a host reference and the disks in inventory order. -/
structure VM where
  UUID : String := ""
  Host : Ref := {}
  Disks : List Disk := []
  deriving DecidableEq, Repr

/-- Library `konveyor/controller/pkg/itinerary`, `Progress`. -/
structure Progress where
  Total : Int := 0
  Completed : Int := 0
  deriving DecidableEq, Repr

/-- Modelled from the spec: `plan.Task` (pkg/apis/virt/v1alpha1/plan is not among the sources):
a name, a progress value and free-form annotations. -/
structure Task where
  Name : String := ""
  Progress : Progress := {}
  Annotations : GoMap := []
  deriving DecidableEq, Repr

/-- Library vm-import-operator, `VirtualMachineImportVmwareSourceVMSpec`; the `*string` holds
the address of a fresh local and is kept by value. -/
structure VirtualMachineImportVmwareSourceVMSpec where
  ID : Option String := none
  deriving DecidableEq, Repr

/-- Library vm-import-operator, `VirtualMachineImportVmwareSourceSpec`. -/
structure VirtualMachineImportVmwareSourceSpec where
  VM : VirtualMachineImportVmwareSourceVMSpec := {}
  deriving DecidableEq, Repr

/-- Library vm-import-operator, `VirtualMachineImportSourceSpec`, as far as `Source` writes it. -/
structure VirtualMachineImportSourceSpec where
  Vmware : Option VirtualMachineImportVmwareSourceSpec := none
  deriving DecidableEq, Repr

/-- Library functions the builder calls: `http.StatusText` and `yaml.Marshal` (applied to a
`map[string]string`, given here by its entries in source order; the result is the encoded
text and the error). -/
structure Library where
  StatusText : Int → String
  Marshal : GoMap → String × Option Error

/-- The vSphere builder. `Client` is `client.Client.Get` on a secret: from the key and the
pre-allocated object to the object after the call and the error. `Inventory` is
`web.Client.Get`: from the pre-allocated descriptor and the VM id to the descriptor after the
call, the status code and the error. `HostMap` is the lookup `HostMap[id]`, `none` for a
missing key (or a nil entry). -/
structure Builder where
  Client : ObjectKey → Secret → Secret × Option Error
  Inventory : VM → String → VM × Int × Option Error
  Provider : Option Provider
  HostMap : String → Option Host

/-- The value of `http.StatusOK`. -/
def StatusOK : Int := 200

/-! ## Builder: host resolution and the secret (builder.go 35-105) -/

/-- Find host ID for VM (builder.go 92-105). -/
def Builder.host (r : Builder) (vmID : String) : Option Host × Option Error :=
  let vm : VM := {}
  match r.Inventory vm vmID with
  | (vm, status, pErr) =>
    match pErr with
    | some e => (none, liberr.Wrap (some e))
    | none =>
      if status = StatusOK then (r.HostMap vm.Host.ID, none)
      else (none, none)

/-- Get the host secret (builder.go 64-88). On a failed `host` lookup the code wraps the named
result `err`, which is still `nil` there, not `fErr`. -/
def Builder.hostSecret (r : Builder) (vmID : String) :
    Outcome (Option Secret × Option Error) :=
  let err : Option Error := none
  match r.host vmID with
  | (_, some _) => .returned (none, liberr.Wrap err)
  | (none, none) => .nilDereference
  | (some host, none) =>
    let ref := host.Spec.Secret
    let secret : Secret := {}
    match r.Client { Namespace := ref.Namespace, Name := ref.Name } secret with
    | (secret, err) =>
      match err with
      | none => .returned (some secret, none)
      | some e =>
        if errors.IsNotFound e then .returned (none, some e)
        else .returned (some secret, liberr.Wrap (some e))

/-- The four entries of the map literal that `Secret` marshals (builder.go 45-50). -/
def secretContent (provider : Provider) (credential : Secret) : GoMap :=
  [ ("apiUrl", provider.Spec.URL),
    ("username", credential.Data.get "user"),
    ("password", credential.Data.get "password"),
    ("thumbprint", credential.Data.get "thumbprint") ]

/-- Build the VMIO secret (builder.go 35-60). `fallback` is the parameter `in`. The result is
the output object after the call and the error. -/
def Builder.Secret (lib : Library) (r : Builder) (vmID : String) (fallback : Option Secret)
    (object : Secret) : Outcome (Secret × Option Error) :=
  match r.hostSecret vmID with
  | .nilDereference => .nilDereference
  | .returned (_, some sErr) => .returned (object, liberr.Wrap (some sErr))
  | .returned (hostSecret, none) =>
    let fallback := match hostSecret with
      | some s => some s
      | none => fallback
    match r.Provider, fallback with
    | none, _ => .nilDereference
    | some _, none => .nilDereference
    | some provider, some credential =>
      match lib.Marshal (secretContent provider credential) with
      | (_, some mErr) => .returned (object, liberr.Wrap (some mErr))
      | (content, none) =>
        .returned ({ object with StringData := [("vmware", content)] }, none)

/-! ## Builder: import source and tasks (builder.go 147-207) -/

/-- The text of `fmt.Sprintf("VM %s lookup failed: %s", vmID, http.StatusText(status))`. -/
def lookupFailed (lib : Library) (vmID : String) (status : Int) : String :=
  "VM " ++ vmID ++ " lookup failed: " ++ lib.StatusText status

/-- Build the VMIO VM Source (builder.go 147-171). -/
def Builder.Source (lib : Library) (r : Builder) (vmID : String)
    (object : VirtualMachineImportSourceSpec) :
    VirtualMachineImportSourceSpec × Option Error :=
  let vm : VM := {}
  match r.Inventory vm vmID with
  | (vm, status, pErr) =>
    match pErr with
    | some e => (object, liberr.Wrap (some e))
    | none =>
      if status = StatusOK then
        let uuid := vm.UUID
        ({ object with Vmware := some { VM := { ID := some uuid } } }, none)
      else
        (object, some (liberr.New (lookupFailed lib vmID status)))

/-- The task appended for one disk (builder.go 185-196); Go integer division truncates. -/
def diskTask (disk : Disk) : Task :=
  let mB := Int.tdiv disk.Capacity 0x100000
  { Name := disk.File
    Progress := { Total := mB }
    Annotations := [("unit", "MB")] }

/-- Build tasks (builder.go 175-207). -/
def Builder.Tasks (lib : Library) (r : Builder) (vmID : String) : List Task × Option Error :=
  let vm : VM := {}
  match r.Inventory vm vmID with
  | (vm, status, pErr) =>
    match pErr with
    | some e => ([], liberr.Wrap (some e))
    | none =>
      if status = StatusOK then
        (vm.Disks.foldl (fun list disk => list ++ [diskTask disk]) [], none)
      else
        ([], some (liberr.New (lookupFailed lib vmID status)))

/-! ## Builder: resource mapping (builder.go 109-143)

`Mapping` stores addresses of fields of its two range variables. Before Go 1.22 (the language
of this repository, whose `Reconcile` still has the context-free signature of the
controller-runtime releases of 2020) a range clause declares its variable once, and every
iteration assigns the next element to that same variable. The variables therefore live in
memory cells, and a `*string` is the address of a field of a cell. -/

/-- Modelled from the spec: the source of a mapping pair (pkg/apis/virt/v1alpha1/plan is not
among the sources): a source identifier. -/
structure SourceObject where
  ID : String := ""
  deriving DecidableEq, Repr

/-- Modelled from the spec: the destination of a network pair: namespace and name. -/
structure DestinationNetwork where
  Namespace : String := ""
  Name : String := ""
  deriving DecidableEq, Repr

/-- Modelled from the spec: the destination of a datastore pair: a storage class. -/
structure DestinationStorage where
  StorageClass : String := ""
  deriving DecidableEq, Repr

/-- Modelled from the spec: `plan.NetworkPair` (pkg/apis/virt/v1alpha1/plan is not among the
sources). -/
structure NetworkPair where
  Source : SourceObject := {}
  Destination : DestinationNetwork := {}
  deriving DecidableEq, Repr

/-- Modelled from the spec: `plan.StoragePair` (pkg/apis/virt/v1alpha1/plan is not among the
sources). -/
structure StoragePair where
  Source : SourceObject := {}
  Destination : DestinationStorage := {}
  deriving DecidableEq, Repr

/-- Modelled from the spec: `plan.Map` (pkg/apis/virt/v1alpha1/plan is not among the sources):
ordered network and datastore pairs, held by value (`Mapping` ranges over them and copies each
pair into its range variable). -/
structure Map where
  Networks : List NetworkPair := []
  Datastores : List StoragePair := []
  deriving DecidableEq, Repr

/-- The variables whose address is taken: cells holding a network pair and cells holding a
storage pair. -/
structure Memory where
  networks : List NetworkPair := []
  datastores : List StoragePair := []
  deriving DecidableEq, Repr

/-- A `*string`: the address of a string field of a variable in a cell. -/
inductive StringPtr where
  | networkSourceID (cell : Nat)
  | networkDestinationNamespace (cell : Nat)
  | storageSourceID (cell : Nat)
  deriving DecidableEq, Repr

/-- Declare a network-pair variable: a new cell holding the zero value. -/
def Memory.newNetwork (mem : Memory) : Memory × Nat :=
  ({ mem with networks := mem.networks ++ [{}] }, mem.networks.length)

/-- Declare a storage-pair variable: a new cell holding the zero value. -/
def Memory.newStorage (mem : Memory) : Memory × Nat :=
  ({ mem with datastores := mem.datastores ++ [{}] }, mem.datastores.length)

/-- Assign to the network-pair variable in `cell`. -/
def Memory.setNetwork (mem : Memory) (cell : Nat) (v : NetworkPair) : Memory :=
  { mem with networks := mem.networks.set cell v }

/-- Assign to the storage-pair variable in `cell`. -/
def Memory.setStorage (mem : Memory) (cell : Nat) (v : StoragePair) : Memory :=
  { mem with datastores := mem.datastores.set cell v }

/-- Read the network-pair variable in `cell`. -/
def Memory.network (mem : Memory) (cell : Nat) : NetworkPair :=
  mem.networks.getD cell {}

/-- Read the storage-pair variable in `cell`. -/
def Memory.storage (mem : Memory) (cell : Nat) : StoragePair :=
  mem.datastores.getD cell {}

/-- Dereference a `*string`. -/
def Memory.load (mem : Memory) : StringPtr → String
  | .networkSourceID cell => (mem.network cell).Source.ID
  | .networkDestinationNamespace cell => (mem.network cell).Destination.Namespace
  | .storageSourceID cell => (mem.storage cell).Source.ID

/-- Library vm-import-operator, `Source`: the `ID` pointer. -/
structure VmioSource where
  ID : Option StringPtr := none
  deriving DecidableEq, Repr

/-- Library vm-import-operator, `ObjectIdentifier`. -/
structure ObjectIdentifier where
  Namespace : Option StringPtr := none
  Name : String := ""
  deriving DecidableEq, Repr

/-- Library vm-import-operator, `NetworkResourceMappingItem`. -/
structure NetworkResourceMappingItem where
  Source : VmioSource := {}
  Target : ObjectIdentifier := {}
  deriving DecidableEq, Repr

/-- Library vm-import-operator, `StorageResourceMappingItem`. -/
structure StorageResourceMappingItem where
  Source : VmioSource := {}
  Target : ObjectIdentifier := {}
  deriving DecidableEq, Repr

/-- Library vm-import-operator, `VmwareMappings`; the two slice pointers are fresh and kept by
value. -/
structure VmwareMappings where
  NetworkMappings : Option (List NetworkResourceMappingItem) := none
  StorageMappings : Option (List StorageResourceMappingItem) := none
  deriving DecidableEq, Repr

/-- Library vm-import-operator, `ResourceMappingSpec`. -/
structure ResourceMappingSpec where
  VmwareMappings : Option VmwareMappings := none
  deriving DecidableEq, Repr

/-- Library vm-import-operator, `ResourceMapping`. -/
structure ResourceMapping where
  Spec : ResourceMappingSpec := {}
  deriving DecidableEq, Repr

/-- One iteration of the network loop (builder.go 112-124): the element is assigned to the
range variable in cell `network`, then an item holding addresses into that cell is appended. -/
def networkStep (network : Nat) (acc : Memory × List NetworkResourceMappingItem)
    (elem : NetworkPair) : Memory × List NetworkResourceMappingItem :=
  let mem := acc.1.setNetwork network elem
  (mem, acc.2 ++ [{ Source := { ID := some (.networkSourceID network) }
                    Target := { Namespace := some (.networkDestinationNamespace network)
                                Name := (mem.network network).Destination.Name } }])

/-- One iteration of the datastore loop (builder.go 125-136). -/
def storageStep (ds : Nat) (acc : Memory × List StorageResourceMappingItem)
    (elem : StoragePair) : Memory × List StorageResourceMappingItem :=
  let mem := acc.1.setStorage ds elem
  (mem, acc.2 ++ [{ Source := { ID := some (.storageSourceID ds) }
                    Target := { Name := (mem.storage ds).Destination.StorageClass } }])

/-- The item the network loop appends for `elem` while its range variable is in `cell`. -/
def networkItem (cell : Nat) (elem : NetworkPair) : NetworkResourceMappingItem :=
  { Source := { ID := some (.networkSourceID cell) }
    Target := { Namespace := some (.networkDestinationNamespace cell)
                Name := elem.Destination.Name } }

/-- The item the datastore loop appends for `elem` while its range variable is in `cell`. -/
def storageItem (cell : Nat) (elem : StoragePair) : StorageResourceMappingItem :=
  { Source := { ID := some (.storageSourceID cell) }
    Target := { Name := elem.Destination.StorageClass } }

/-- Build the VMIO ResourceMapping CR (builder.go 109-143). The result is the output object,
the error and the memory after the call. -/
def Builder.Mapping (_r : Builder) (mp : Map) (object : ResourceMapping) (mem : Memory) :
    ResourceMapping × Option Error × Memory :=
  let netMap : List NetworkResourceMappingItem := []
  let dsMap : List StorageResourceMappingItem := []
  match mem.newNetwork with
  | (mem, network) =>
    match mp.Networks.foldl (networkStep network) (mem, netMap) with
    | (mem, netMap) =>
      match mem.newStorage with
      | (mem, ds) =>
        match mp.Datastores.foldl (storageStep ds) (mem, dsMap) with
        | (mem, dsMap) =>
          let mappings : VmwareMappings :=
            { NetworkMappings := some netMap, StorageMappings := some dsMap }
          ({ object with Spec := { object.Spec with VmwareMappings := some mappings } },
            none, mem)

/-- The network items of a built mapping (empty when unset). -/
def ResourceMapping.networkItems (object : ResourceMapping) : List NetworkResourceMappingItem :=
  ((object.Spec.VmwareMappings.bind (·.NetworkMappings)).getD [])

/-- The storage items of a built mapping (empty when unset). -/
def ResourceMapping.storageItems (object : ResourceMapping) : List StorageResourceMappingItem :=
  ((object.Spec.VmwareMappings.bind (·.StorageMappings)).getD [])

/-- The source ID an item shows when it is read in memory `mem`. -/
def Memory.sourceID (mem : Memory) (source : VmioSource) : Option String :=
  source.ID.map mem.load

/-- The target namespace an item shows when it is read in memory `mem`. -/
def Memory.targetNamespace (mem : Memory) (target : ObjectIdentifier) : Option String :=
  target.Namespace.map mem.load

/-! ## Migration reconciler (controller.go 92-131) -/

/-- Library `konveyor/controller/pkg/condition`, `Condition`. The transition time and the
staging mark, which `Reconcile` never switches on, are left out. -/
structure Condition where
  Type_ : String := ""
  Status : String := ""
  Reason : String := ""
  Category : String := ""
  Message : String := ""
  Durable : Bool := false
  deriving DecidableEq, Repr

/-- Library `konveyor/controller/pkg/condition`, the list held by `Conditions`. -/
abbrev Conditions := List Condition

namespace libcnd

/-- Condition type `Ready`. -/
def Ready : String := "Ready"
/-- Condition status `True`. -/
def True_ : String := "True"
/-- Category `Critical`. -/
def Critical : String := "Critical"
/-- Category `Error`. -/
def Error_ : String := "Error"
/-- Category `Required`. -/
def Required : String := "Required"

/-- Library `FindCondition`: the first condition of the type. -/
def FindCondition (cs : Conditions) (cndType : String) : Option Condition :=
  cs.find? (fun c => c.Type_ == cndType)

/-- Library `SetCondition`: update the first condition of the same type, or append. -/
def SetCondition : Conditions → Condition → Conditions
  | [], c => [c]
  | x :: xs, c => if x.Type_ == c.Type_ then c :: xs else x :: SetCondition xs c

/-- Library `DeleteCondition`: drop the conditions of the type. -/
def DeleteCondition (cs : Conditions) (cndType : String) : Conditions :=
  cs.filter (fun c => !(c.Type_ == cndType))

/-- Library `HasConditionCategory` for one category: a condition of that category is true. -/
def HasConditionCategory (cs : Conditions) (category : String) : Bool :=
  cs.any (fun c => c.Category == category && c.Status == True_)

/-- Library `HasBlockerCondition`: a `Critical` or `Error` condition is true. -/
def HasBlockerCondition (cs : Conditions) : Bool :=
  HasConditionCategory cs Critical || HasConditionCategory cs Error_

/-- Library `SetReady`: set the `Ready` condition to true with the message, or delete it. -/
def SetReady (cs : Conditions) (ready : Bool) (message : String) : Conditions :=
  if ready then
    SetCondition cs { Type_ := Ready, Status := True_, Category := Required, Message := message }
  else
    DeleteCondition cs Ready

/-- The `Ready` condition is present and true. -/
def IsReady (cs : Conditions) : Bool :=
  match FindCondition cs Ready with
  | some c => c.Status == True_
  | none => false

end libcnd

/-- Modelled from the spec: `api.MigrationStatus` (pkg/apis/virt/v1alpha1 is not among the
sources): the status conditions and the observed-generation counter. -/
structure MigrationStatus where
  Conditions : Conditions := []
  ObservedGeneration : Int := 0
  deriving DecidableEq, Repr

/-- Modelled from the spec: `api.MigrationSpec` (pkg/apis/virt/v1alpha1 is not among the
sources): the reference to a Plan. -/
structure MigrationSpec where
  Plan : ObjectReference := {}
  deriving DecidableEq, Repr

/-- Modelled from the spec: `api.Migration` (pkg/apis/virt/v1alpha1 is not among the sources):
a named resource with a generation counter, a spec and a status. -/
structure Migration where
  Namespace : String := ""
  Name : String := ""
  Generation : Int := 0
  Spec : MigrationSpec := {}
  Status : MigrationStatus := {}
  deriving DecidableEq, Repr

/-- Library controller-runtime, `reconcile.Result`. -/
structure Result where
  Requeue : Bool := false
  RequeueAfter : Int := 0
  deriving DecidableEq, Repr

/-- The Migration reconciler with what `Reconcile` calls. `Get` is the embedded
`client.Client.Get`: from the key and the pre-allocated object to the object after the call
and the error. `Update` is `Status().Update`. `validate` is the method of that name and
`ReadyMessage` the constant of that name; both live in validation.go, which is not among the
sources, and are parameters. `validate` receives the fetched Migration through a pointer: it
gives the status after validation and the error, and (the spec: no spec mutation ever) leaves
the rest of the resource alone. -/
structure Reconciler where
  Get : ObjectKey → Migration → Migration × Option Error
  validate : Migration → MigrationStatus × Option Error
  Update : Migration → Option Error
  ReadyMessage : String

/-- What one call of `Reconcile` does: the two results and the objects handed to
`Status().Update`, in call order. -/
structure Reconciled where
  result : Result
  err : Option Error
  updates : List Migration
  deriving DecidableEq, Repr

/-- The block `// Ready condition.` (controller.go 116-119). -/
def Reconciler.readyCondition (r : Reconciler) (migration : Migration) : Migration :=
  if !libcnd.HasBlockerCondition migration.Status.Conditions then
    { migration with Status := { migration.Status with
        Conditions := libcnd.SetReady migration.Status.Conditions true r.ReadyMessage } }
  else migration

/-- The assignment of `// Apply changes.` (controller.go 122). -/
def observeGeneration (migration : Migration) : Migration :=
  { migration with Status := { migration.Status with
      ObservedGeneration := migration.Generation } }

/-- Reconcile a Migration CR (controller.go 92-131). -/
def Reconciler.Reconcile (r : Reconciler) (request : ObjectKey) : Reconciled :=
  let migration : Migration := {}
  match r.Get request migration with
  | (_, some err) =>
    if errors.IsNotFound err then { result := {}, err := none, updates := [] }
    else { result := {}, err := some err, updates := [] }
  | (migration, none) =>
    match r.validate migration with
    | (_, some _) => { result := { Requeue := true }, err := none, updates := [] }
    | (status, none) =>
      let migration := { migration with Status := status }
      let migration := r.readyCondition migration
      let migration := observeGeneration migration
      match r.Update migration with
      | some _ => { result := { Requeue := true }, err := none, updates := [migration] }
      | none => { result := {}, err := none, updates := [migration] }

/-- The statements of `Reconcile` in source order: the fetch (controller.go 98-107), the
validation (109-114), the Ready block (116-119), the assignment of `ObservedGeneration` (122),
the status update (123-127), and the return. -/
inductive Stmt where
  | fetch
  | validate
  | readyCondition
  | observedGeneration
  | statusUpdate
  | done
  deriving DecidableEq, Repr

/-- A point of one run of `Reconcile`: the statement about to execute, the in-memory
`migration`, the results set so far and the objects handed to `Status().Update` so far. -/
structure Frame where
  pc : Stmt
  migration : Migration
  result : Result
  err : Option Error
  updates : List Migration
  deriving DecidableEq, Repr

/-- The entry of `Reconcile`: `migration := &api.Migration{}`. -/
def Frame.start : Frame :=
  { pc := .fetch, migration := {}, result := {}, err := none, updates := [] }

/-- Execute the statement at `pc` (controller.go 98-131, one statement at a time). -/
def Reconciler.step (r : Reconciler) (request : ObjectKey) (f : Frame) : Frame :=
  match f.pc with
  | .fetch =>
    match r.Get request f.migration with
    | (_, some err) =>
      if errors.IsNotFound err then { f with pc := .done, result := {}, err := none }
      else { f with pc := .done, result := {}, err := some err }
    | (migration, none) => { f with pc := .validate, migration := migration }
  | .validate =>
    match r.validate f.migration with
    | (_, some _) => { f with pc := .done, result := { Requeue := true }, err := none }
    | (status, none) =>
      { f with pc := .readyCondition, migration := { f.migration with Status := status } }
  | .readyCondition =>
    if !libcnd.HasBlockerCondition f.migration.Status.Conditions then
      let conditions := libcnd.SetReady f.migration.Status.Conditions true r.ReadyMessage
      { f with pc := .observedGeneration
               migration := { f.migration with
                 Status := { f.migration.Status with Conditions := conditions } } }
    else { f with pc := .observedGeneration }
  | .observedGeneration =>
    { f with pc := .statusUpdate
             migration := { f.migration with
               Status := { f.migration.Status with
                 ObservedGeneration := f.migration.Generation } } }
  | .statusUpdate =>
    match r.Update f.migration with
    | some _ =>
      { f with pc := .done, result := { Requeue := true }, err := none
               updates := f.updates ++ [f.migration] }
    | none =>
      { f with pc := .done, result := {}, err := none
               updates := f.updates ++ [f.migration] }
  | .done => f

/-- The frames of a run from `f`, ending at the first frame that has returned; `fuel` bounds
the number of statements executed. -/
def Reconciler.frames (r : Reconciler) (request : ObjectKey) : Nat → Frame → List Frame
  | 0, f => [f]
  | fuel + 1, f =>
    if f.pc = .done then [f] else f :: Reconciler.frames r request fuel (r.step request f)

/-- The run of `Reconcile`: five statements at most are executed. -/
def Reconciler.execution (r : Reconciler) (request : ObjectKey) : List Frame :=
  r.frames request 5 Frame.start

/-- Modelled from the spec: the outcome of `Reconciler.validate` (validation.go is not among
the sources) as far as Ready goes. Spec 4.1 step 4: when a blocking condition is set, Ready is
left "unset or false as already computed by validation"; so a status that leaves validation
with a blocking condition set does not have Ready true. -/
def readyComputedByValidation (status : MigrationStatus) : Bool :=
  !libcnd.HasBlockerCondition status.Conditions || !libcnd.IsReady status.Conditions

/-! ## Concrete collaborators used to evaluate the code -/

/-- A library instance: two entries of the status table and a line-per-entry encoder. -/
def exampleLibrary : Library :=
  { StatusText := fun code =>
      if code = 200 then "OK" else if code = 404 then "Not Found" else ""
    Marshal := fun m => (String.join (m.map (fun kv => kv.1 ++ ": " ++ kv.2 ++ "\n")), none) }

/-- A VM descriptor on host `host-1` with two disks of 2 MiB and 0.5 MiB. -/
def exampleVM : VM :=
  { UUID := "4206-aa11"
    Host := { ID := "host-1" }
    Disks := [ { File := "[ds1] vm/disk-0.vmdk", Capacity := 2097152 },
               { File := "[ds1] vm/disk-1.vmdk", Capacity := 524288 } ] }

/-- The secret stored for host `host-1`. -/
def exampleHostSecret : Secret :=
  { Data := [("user", "esx-admin"), ("password", "esx-pw"), ("thumbprint", "AA:BB")] }

/-- The provider-wide credential a caller passes as fallback. -/
def exampleFallback : Secret :=
  { Data := [("user", "vc-admin"), ("password", "vc-pw"), ("thumbprint", "CC:DD")] }

/-- A builder whose inventory gives `answer` for every VM id and whose object store gives
`stored` for every key; `host-1` is the one known host. -/
def exampleBuilder (answer : VM × Int × Option Error) (stored : Secret × Option Error) :
    Builder :=
  { Client := fun _ _ => stored
    Inventory := fun _ _ => answer
    Provider := some { Spec := { URL := "https://vcenter.example/sdk" } }
    HostMap := fun id =>
      if id = "host-1" then some { Spec := { Secret := { Namespace := "ns", Name := "esx" } } }
      else none }

/-- A plan map with two networks and one datastore. -/
def exampleMap : Map :=
  { Networks := [ { Source := { ID := "network-1" }
                    Destination := { Namespace := "ns-a", Name := "net-a" } },
                  { Source := { ID := "network-2" }
                    Destination := { Namespace := "ns-b", Name := "net-b" } } ]
    Datastores := [ { Source := { ID := "datastore-1" }
                      Destination := { StorageClass := "fast" } } ] }

/-- A stored Migration of generation 2 whose status, written by an earlier pass, is Ready and
observed at generation 1. -/
def exampleMigration : Migration :=
  { Namespace := "ns", Name := "migration-1", Generation := 2
    Status := { Conditions := [ { Type_ := "Ready", Status := "True", Category := "Required"
                                  Message := "The migration is ready." } ]
                ObservedGeneration := 1 } }

/-- A validation that recomputes the conditions: it drops Ready, raises the critical
condition `PlanNotValid` and reports no error. -/
def blockPlanNotValid (migration : Migration) : MigrationStatus × Option Error :=
  let blocker : Condition :=
    { Type_ := "PlanNotValid", Status := "True", Reason := "NotFound", Category := "Critical"
      Message := "The plan does not exist." }
  let kept := libcnd.DeleteCondition migration.Status.Conditions libcnd.Ready
  ({ migration.Status with Conditions := libcnd.SetCondition kept blocker }, none)

/-- A validation that leaves the status alone and reports an error. -/
def failValidation (migration : Migration) : MigrationStatus × Option Error :=
  (migration.Status, some (.plain "plan lookup failed"))

/-- A validation that sets no condition and reports no error. -/
def passValidation (migration : Migration) : MigrationStatus × Option Error :=
  ({ migration.Status with Conditions := [] }, none)

/-- A reconciler over a store that holds `exampleMigration` under every key and accepts
every status update. -/
def exampleReconciler (validate : Migration → MigrationStatus × Option Error) : Reconciler :=
  { Get := fun _ _ => (exampleMigration, none)
    validate := validate
    Update := fun _ => none
    ReadyMessage := "The migration is ready." }

/-! ## Properties of `Tasks` and `Source` -/

/-- The append loop of `Tasks` builds the image of the disks, in order. -/
theorem foldl_diskTask (disks : List Disk) (acc : List Task) :
    disks.foldl (fun list disk => list ++ [diskTask disk]) acc = acc ++ disks.map diskTask := by
  induction disks generalizing acc with
  | nil => simp
  | cons d ds ih => simp [ih]

/-- On status 200 without error, `Tasks` returns the image of the disks and no error. -/
theorem tasks_of_ok (lib : Library) (r : Builder) (vmID : String) (vm : VM)
    (h : r.Inventory {} vmID = (vm, StatusOK, none)) :
    r.Tasks lib vmID = (vm.Disks.map diskTask, none) := by
  simp [Builder.Tasks, h, foldl_diskTask]

/-- C1: when the inventory answers status 200 with disks d1..dn, `Tasks` returns a nil error
and exactly n tasks in inventory order; task i is named after disk i's file, its total is the
capacity divided by 1,048,576 truncated toward zero (same sign, magnitude the floor of the
magnitude's quotient), it has no completed units and its annotations are `unit: MB`;
capacities 1,048,576, 1,048,575 and 0 give 1, 0 and 0, and capacities [2097152, 524288] give
totals [2, 0]. -/
theorem C1_tasks_per_disk (lib : Library) (r : Builder) (vmID : String) (vm : VM)
    (h : r.Inventory {} vmID = (vm, StatusOK, none)) :
    (r.Tasks lib vmID).2 = none
    ∧ (r.Tasks lib vmID).1.length = vm.Disks.length
    ∧ (∀ (i : Nat) (d : Disk), vm.Disks[i]? = some d →
        ∃ t, (r.Tasks lib vmID).1[i]? = some t
          ∧ t.Name = d.File
          ∧ t.Progress.Total = Int.tdiv d.Capacity 1048576
          ∧ t.Progress.Total.natAbs = d.Capacity.natAbs / 1048576
          ∧ (0 ≤ d.Capacity → 0 ≤ t.Progress.Total)
          ∧ (d.Capacity ≤ 0 → t.Progress.Total ≤ 0)
          ∧ t.Progress.Completed = 0
          ∧ t.Annotations = [("unit", "MB")]
          ∧ (d.Capacity = 1048576 → t.Progress.Total = 1)
          ∧ (d.Capacity = 1048575 → t.Progress.Total = 0)
          ∧ (d.Capacity = 0 → t.Progress.Total = 0))
    ∧ (vm.Disks.map (·.Capacity) = [2097152, 524288] →
        (r.Tasks lib vmID).1.map (·.Progress.Total) = [2, 0]) := by
  rw [tasks_of_ok lib r vmID vm h]
  refine ⟨rfl, by simp, ?_, ?_⟩
  · intro i d hd
    refine ⟨diskTask d, by simp [List.getElem?_map, hd], rfl, rfl, ?_, ?_, ?_, rfl, rfl, ?_, ?_, ?_⟩
    · show (Int.tdiv d.Capacity 0x100000).natAbs = _
      rw [Int.natAbs_tdiv]
      rfl
    · intro h0
      exact Int.tdiv_nonneg h0 (by decide)
    · intro h0
      show Int.tdiv d.Capacity 0x100000 ≤ 0
      have := Int.tdiv_nonneg (a := -d.Capacity) (b := 0x100000) (by omega) (by decide)
      rw [Int.neg_tdiv] at this
      omega
    · intro hc
      show Int.tdiv d.Capacity 0x100000 = 1
      rw [hc]; decide
    · intro hc
      show Int.tdiv d.Capacity 0x100000 = 0
      rw [hc]; decide
    · intro hc
      show Int.tdiv d.Capacity 0x100000 = 0
      rw [hc]; decide
  · intro hc
    have : vm.Disks.map (fun d => (diskTask d).Progress.Total)
        = (vm.Disks.map (·.Capacity)).map (fun c => Int.tdiv c 0x100000) := by
      simp [diskTask, List.map_map, Function.comp_def]
    simp only [List.map_map, Function.comp_def]
    rw [this, hc]
    decide

/-- C1 witness: the example VM with disks of 2,097,152 and 524,288 bytes. -/
theorem C1_tasks_per_disk_witness :
    (exampleBuilder (exampleVM, 200, none) ({}, none)).Inventory {} "vm-101"
        = (exampleVM, StatusOK, none)
    ∧ ((exampleBuilder (exampleVM, 200, none) ({}, none)).Tasks exampleLibrary "vm-101").1.map
        (·.Progress.Total) = [2, 0] :=
  ⟨rfl, (C1_tasks_per_disk exampleLibrary (exampleBuilder (exampleVM, 200, none) ({}, none))
    "vm-101" exampleVM rfl).2.2.2 rfl⟩

/-- C6: when the inventory answers a status other than 200 without a transport error,
`Source` and `Tasks` both return the error whose message is
`VM <id> lookup failed: <status text>`, which contains the VM id and the status text;
`Source` hands back the output descriptor unchanged and `Tasks` returns an empty list. -/
theorem C6_lookup_rejected (lib : Library) (r : Builder) (vmID : String) (vm : VM)
    (status : Int) (object : VirtualMachineImportSourceSpec)
    (h : r.Inventory {} vmID = (vm, status, none)) (hs : status ≠ StatusOK) :
    ∃ e : Error,
      r.Source lib vmID object = (object, some e)
      ∧ r.Tasks lib vmID = ([], some e)
      ∧ e.message = "VM " ++ vmID ++ " lookup failed: " ++ lib.StatusText status
      ∧ vmID.data <:+: e.message.data
      ∧ (lib.StatusText status).data <:+: e.message.data := by
  refine ⟨liberr.New (lookupFailed lib vmID status), ?_, ?_, rfl, ?_, ?_⟩
  · simp [Builder.Source, h, hs]
  · simp [Builder.Tasks, h, hs]
  · refine ⟨"VM ".data, " lookup failed: ".data ++ (lib.StatusText status).data, ?_⟩
    simp [liberr.New, Error.message, lookupFailed, String.data_append]
  · refine ⟨"VM ".data ++ vmID.data ++ " lookup failed: ".data, [], ?_⟩
    simp [liberr.New, Error.message, lookupFailed, String.data_append]

/-- C6 witness: the inventory answers 404 for `vm-404`. -/
theorem C6_lookup_rejected_witness :
    ∃ e : Error,
      (exampleBuilder ({}, 404, none) ({}, none)).Source exampleLibrary "vm-404" {}
        = ({}, some e)
      ∧ (exampleBuilder ({}, 404, none) ({}, none)).Tasks exampleLibrary "vm-404" = ([], some e)
      ∧ e.message = "VM vm-404 lookup failed: Not Found" := by
  obtain ⟨e, h1, h2, h3, _, _⟩ :=
    C6_lookup_rejected exampleLibrary (exampleBuilder ({}, 404, none) ({}, none)) "vm-404" {}
      404 {} rfl (by decide)
  exact ⟨e, h1, h2, by rw [h3]; decide⟩

/-! ## Properties of `Secret` -/

/-- When the inventory answers 200 and the host is known, `host` returns it. -/
theorem host_of_ok (r : Builder) (vmID : String) (vm : VM) (host : Host)
    (hInv : r.Inventory {} vmID = (vm, StatusOK, none))
    (hHost : r.HostMap vm.Host.ID = some host) :
    r.host vmID = (some host, none) := by
  simp [Builder.host, hInv, hHost]

/-- C5: when the host resolves (inventory status 200, host in the HostMap) and the object
store finds its secret, `Secret` (with a provider set and the encoder accepting the map)
returns a nil error and sets `StringData` to the single entry `vmware`, whose value is the
encoding of the four fields apiUrl (the provider URL), username, password and thumbprint read
from the host secret's `user`, `password` and `thumbprint`; every fallback credential, nil
included, gives the same result. -/
theorem C5_secret_from_host (lib : Library) (r : Builder) (vmID : String) (vm : VM)
    (host : Host) (secret : Secret) (provider : Provider) (content : String)
    (fallback : Option Secret) (object : Secret)
    (hInv : r.Inventory {} vmID = (vm, StatusOK, none))
    (hHost : r.HostMap vm.Host.ID = some host)
    (hGet : r.Client { Namespace := host.Spec.Secret.Namespace,
                       Name := host.Spec.Secret.Name } {} = (secret, none))
    (hProvider : r.Provider = some provider)
    (hYaml : lib.Marshal [ ("apiUrl", provider.Spec.URL),
                           ("username", secret.Data.get "user"),
                           ("password", secret.Data.get "password"),
                           ("thumbprint", secret.Data.get "thumbprint") ] = (content, none)) :
    r.Secret lib vmID fallback object
      = .returned ({ object with StringData := [("vmware", content)] }, none)
    ∧ ∀ other : Option Secret,
        r.Secret lib vmID other object = r.Secret lib vmID fallback object := by
  have key : ∀ fb : Option Secret, r.Secret lib vmID fb object
      = .returned ({ object with StringData := [("vmware", content)] }, none) := by
    intro fb
    have hs : r.hostSecret vmID = .returned (some secret, none) := by
      simp [Builder.hostSecret, host_of_ok r vmID vm host hInv hHost, hGet]
    simp [Builder.Secret, hs, hProvider, secretContent, hYaml]
  exact ⟨key fallback, fun other => by rw [key other, key fallback]⟩

/-- C5 witness: `host-1` has a stored secret; the payload carries its three entries and the
provider URL, not the fallback's. -/
theorem C5_secret_from_host_witness :
    (exampleBuilder (exampleVM, 200, none) (exampleHostSecret, none)).Secret exampleLibrary
        "vm-101" (some exampleFallback) {}
      = .returned ({ StringData := [("vmware",
          "apiUrl: https://vcenter.example/sdk\nusername: esx-admin\npassword: esx-pw\nthumbprint: AA:BB\n")] },
          none) :=
  (C5_secret_from_host exampleLibrary
    (exampleBuilder (exampleVM, 200, none) (exampleHostSecret, none)) "vm-101" exampleVM
    { Spec := { Secret := { Namespace := "ns", Name := "esx" } } } exampleHostSecret
    { Spec := { URL := "https://vcenter.example/sdk" } }
    "apiUrl: https://vcenter.example/sdk\nusername: esx-admin\npassword: esx-pw\nthumbprint: AA:BB\n"
    (some exampleFallback) {} rfl rfl rfl rfl (by decide)).1

/-- C4: when the host resolves and the object store reports its secret not-found,
`hostSecret` clears the secret but returns the not-found error, so `Secret` returns that
error wrapped (not nil) and hands back the output object unwritten, whatever the fallback. -/
theorem C4_not_found_returned_as_error (lib : Library) (r : Builder) (vmID : String) (vm : VM)
    (host : Host) (secret : Secret) (e : Error) (fallback : Option Secret) (object : Secret)
    (hInv : r.Inventory {} vmID = (vm, StatusOK, none))
    (hHost : r.HostMap vm.Host.ID = some host)
    (hGet : r.Client { Namespace := host.Spec.Secret.Namespace,
                       Name := host.Spec.Secret.Name } {} = (secret, some e))
    (hNotFound : errors.IsNotFound e = true) :
    r.hostSecret vmID = .returned (none, some e)
    ∧ r.Secret lib vmID fallback object = .returned (object, some (.traced e)) := by
  have hs : r.hostSecret vmID = .returned (none, some e) := by
    simp [Builder.hostSecret, host_of_ok r vmID vm host hInv hHost, hGet, hNotFound]
  refine ⟨hs, ?_⟩
  cases e with
  | plain msg => simp [errors.IsNotFound] at hNotFound
  | traced w => simp [errors.IsNotFound] at hNotFound
  | apiStatus reason msg => simp [Builder.Secret, hs, liberr.Wrap]

/-- C4 witness: the secret of `host-1` is not-found and a fallback is supplied; the call
returns the not-found error and leaves the output empty. -/
theorem C4_not_found_returned_as_error_witness :
    (exampleBuilder (exampleVM, 200, none)
        ({}, some (.apiStatus "NotFound" "secret esx not found"))).Secret exampleLibrary
        "vm-101" (some exampleFallback) {}
      = .returned ({}, some (.traced (.apiStatus "NotFound" "secret esx not found"))) :=
  (C4_not_found_returned_as_error exampleLibrary
    (exampleBuilder (exampleVM, 200, none)
      ({}, some (.apiStatus "NotFound" "secret esx not found")))
    "vm-101" exampleVM { Spec := { Secret := { Namespace := "ns", Name := "esx" } } } {}
    (.apiStatus "NotFound" "secret esx not found") (some exampleFallback) {}
    rfl rfl rfl rfl).2

/-- C7: when the inventory query of host resolution returns an error, `hostSecret` wraps its
own nil result instead of that error and returns no secret and no error, so `Secret` (with a
provider set and the encoder accepting the map) returns a nil error and writes the payload
built from the fallback credential. -/
theorem C7_lookup_error_dropped (lib : Library) (r : Builder) (vmID : String) (vm : VM)
    (status : Int) (e : Error) (provider : Provider) (fallback : Secret) (content : String)
    (object : Secret)
    (hInv : r.Inventory {} vmID = (vm, status, some e))
    (hProvider : r.Provider = some provider)
    (hYaml : lib.Marshal [ ("apiUrl", provider.Spec.URL),
                           ("username", fallback.Data.get "user"),
                           ("password", fallback.Data.get "password"),
                           ("thumbprint", fallback.Data.get "thumbprint") ] = (content, none)) :
    (r.host vmID).2 = liberr.Wrap (some e)
    ∧ r.hostSecret vmID = .returned (none, none)
    ∧ r.Secret lib vmID (some fallback) object
        = .returned ({ object with StringData := [("vmware", content)] }, none) := by
  have hh : r.host vmID = (none, liberr.Wrap (some e)) := by
    simp [Builder.host, hInv]
  have hs : r.hostSecret vmID = .returned (none, none) := by
    cases e <;> simp [Builder.hostSecret, hh, liberr.Wrap]
  refine ⟨by rw [hh], hs, ?_⟩
  simp [Builder.Secret, hs, hProvider, secretContent, hYaml]

/-- C7 witness: the inventory is unreachable; the call succeeds with the fallback's
credential in the payload. -/
theorem C7_lookup_error_dropped_witness :
    (exampleBuilder ({}, 0, some (.plain "connection refused")) ({}, none)).Secret
        exampleLibrary "vm-101" (some exampleFallback) {}
      = .returned ({ StringData := [("vmware",
          "apiUrl: https://vcenter.example/sdk\nusername: vc-admin\npassword: vc-pw\nthumbprint: CC:DD\n")] },
          none) :=
  (C7_lookup_error_dropped exampleLibrary
    (exampleBuilder ({}, 0, some (.plain "connection refused")) ({}, none)) "vm-101" {} 0
    (.plain "connection refused") { Spec := { URL := "https://vcenter.example/sdk" } }
    exampleFallback
    "apiUrl: https://vcenter.example/sdk\nusername: vc-admin\npassword: vc-pw\nthumbprint: CC:DD\n"
    {} rfl rfl (by decide)).2.2

/-- C8: when the inventory answers host resolution with a status other than 200 and no
error, `host` returns a nil host with a nil error and `hostSecret` dereferences it: `Secret`
ends in a nil dereference for every fallback and output, and returns nothing. -/
theorem C8_nil_host_dereferenced (lib : Library) (r : Builder) (vmID : String) (vm : VM)
    (status : Int) (fallback : Option Secret) (object : Secret)
    (hInv : r.Inventory {} vmID = (vm, status, none)) (hs : status ≠ StatusOK) :
    r.host vmID = (none, none)
    ∧ r.hostSecret vmID = .nilDereference
    ∧ r.Secret lib vmID fallback object = .nilDereference := by
  have hh : r.host vmID = (none, none) := by
    simp [Builder.host, hInv, hs]
  have hsec : r.hostSecret vmID = .nilDereference := by
    simp [Builder.hostSecret, hh]
  exact ⟨hh, hsec, by simp [Builder.Secret, hsec]⟩

/-- C8 witness: the inventory answers 404 for the VM and a fallback is supplied. -/
theorem C8_nil_host_dereferenced_witness :
    (exampleBuilder ({}, 404, none) ({}, none)).Secret exampleLibrary "vm-404"
        (some exampleFallback) {} = .nilDereference :=
  (C8_nil_host_dereferenced exampleLibrary (exampleBuilder ({}, 404, none) ({}, none))
    "vm-404" {} 404 (some exampleFallback) {} rfl (by decide)).2.2

/-! ## Properties of `Mapping` -/

/-- Reading a network variable right after assigning it. -/
theorem network_setNetwork (mem : Memory) (c : Nat) (v : NetworkPair)
    (h : c < mem.networks.length) : (mem.setNetwork c v).network c = v := by
  simp [Memory.network, Memory.setNetwork, List.getD_eq_getElem?_getD, h]

/-- Reading a storage variable right after assigning it. -/
theorem storage_setStorage (mem : Memory) (c : Nat) (v : StoragePair)
    (h : c < mem.datastores.length) : (mem.setStorage c v).storage c = v := by
  simp [Memory.storage, Memory.setStorage, List.getD_eq_getElem?_getD, h]

/-- The network loop: one item per element in order, all pointing into the one cell, which
ends up holding the last element. -/
theorem foldl_networkStep (c : Nat) (ns : List NetworkPair) (mem : Memory)
    (items : List NetworkResourceMappingItem) (hc : c < mem.networks.length) :
    (ns.foldl (networkStep c) (mem, items)).2 = items ++ ns.map (networkItem c)
    ∧ (ns.foldl (networkStep c) (mem, items)).1.network c = ns.getLast?.getD (mem.network c)
    ∧ (ns.foldl (networkStep c) (mem, items)).1.datastores = mem.datastores := by
  induction ns generalizing mem items with
  | nil => simp
  | cons e es ih =>
    have hlen : c < (mem.setNetwork c e).networks.length := by
      simpa [Memory.setNetwork] using hc
    obtain ⟨h1, h2, h3⟩ := ih (mem.setNetwork c e)
      (items ++ [{ Source := { ID := some (.networkSourceID c) }
                   Target := { Namespace := some (.networkDestinationNamespace c)
                               Name := ((mem.setNetwork c e).network c).Destination.Name } }])
      hlen
    simp only [List.foldl_cons, networkStep]
    refine ⟨?_, ?_, ?_⟩
    · rw [h1, network_setNetwork mem c e hc]; simp [networkItem]
    · rw [h2, network_setNetwork mem c e hc, List.getLast?_cons]; simp
    · rw [h3]; simp [Memory.setNetwork]

/-- The datastore loop: one item per element in order, all pointing into the one cell, which
ends up holding the last element; the network cells are untouched. -/
theorem foldl_storageStep (c : Nat) (ds : List StoragePair) (mem : Memory)
    (items : List StorageResourceMappingItem) (hc : c < mem.datastores.length) :
    (ds.foldl (storageStep c) (mem, items)).2 = items ++ ds.map (storageItem c)
    ∧ (ds.foldl (storageStep c) (mem, items)).1.storage c = ds.getLast?.getD (mem.storage c)
    ∧ (ds.foldl (storageStep c) (mem, items)).1.networks = mem.networks := by
  induction ds generalizing mem items with
  | nil => simp
  | cons e es ih =>
    have hlen : c < (mem.setStorage c e).datastores.length := by
      simpa [Memory.setStorage] using hc
    obtain ⟨h1, h2, h3⟩ := ih (mem.setStorage c e)
      (items ++ [{ Source := { ID := some (.storageSourceID c) }
                   Target := { Name := ((mem.setStorage c e).storage c).Destination.StorageClass } }])
      hlen
    simp only [List.foldl_cons, storageStep]
    refine ⟨?_, ?_, ?_⟩
    · rw [h1, storage_setStorage mem c e hc]; simp [storageItem]
    · rw [h2, storage_setStorage mem c e hc, List.getLast?_cons]; simp
    · rw [h3]; simp [Memory.setStorage]

/-- What `Mapping` returns: the items of both loops, and a memory in which the two range
variables hold the last network pair and the last storage pair. -/
theorem mapping_result (r : Builder) (mp : Map) (object : ResourceMapping) (mem : Memory) :
    (r.Mapping mp object mem).2.1 = none
    ∧ (r.Mapping mp object mem).1.networkItems
        = mp.Networks.map (networkItem mem.networks.length)
    ∧ (r.Mapping mp object mem).1.storageItems
        = mp.Datastores.map (storageItem mem.datastores.length)
    ∧ (r.Mapping mp object mem).2.2.network mem.networks.length
        = mp.Networks.getLast?.getD {}
    ∧ (r.Mapping mp object mem).2.2.storage mem.datastores.length
        = mp.Datastores.getLast?.getD {} := by
  have hc : mem.networks.length < (mem.newNetwork).1.networks.length := by
    simp [Memory.newNetwork]
  obtain ⟨n1, n2, n3⟩ := foldl_networkStep mem.networks.length mp.Networks
    (mem.newNetwork).1 [] hc
  generalize hA : mp.Networks.foldl (networkStep mem.networks.length) ((mem.newNetwork).1, [])
    = A at n1 n2 n3
  have hd : mem.datastores.length < (A.1.newStorage).1.datastores.length := by
    simp [Memory.newStorage, n3, Memory.newNetwork]
  have hAd : A.1.datastores.length = mem.datastores.length := by
    simp [n3, Memory.newNetwork]
  obtain ⟨s1, s2, s3⟩ := foldl_storageStep mem.datastores.length mp.Datastores
    (A.1.newStorage).1 [] hd
  generalize hB : mp.Datastores.foldl (storageStep mem.datastores.length)
    ((A.1.newStorage).1, []) = B at s1 s2 s3
  have hM : r.Mapping mp object mem
      = ((⟨⟨some ⟨some A.2, some B.2⟩⟩⟩ : ResourceMapping), none, B.1) := by
    simp only [Builder.Mapping, Memory.newNetwork, Memory.newStorage] at hA hB ⊢
    rw [hA]
    simp only [hAd] at hB ⊢
    rw [hB]
  rw [hM]
  refine ⟨rfl, ?_, ?_, ?_, ?_⟩
  · simp [ResourceMapping.networkItems, n1]
  · simp [ResourceMapping.storageItems, s1]
  · show B.1.network mem.networks.length = _
    have : B.1.network mem.networks.length = A.1.network mem.networks.length := by
      simp [Memory.network, s3, Memory.newStorage]
    rw [this, n2]
    simp [Memory.network, Memory.newNetwork, List.getD_eq_getElem?_getD]
  · show B.1.storage mem.datastores.length = _
    rw [s2]
    simp [Memory.storage, Memory.newStorage, List.getD_eq_getElem?_getD, hAd]

/-- A list with an element at some index has a last element. -/
theorem getLast?_of_getElem? {α : Type} (l : List α) (i : Nat) (a : α) (h : l[i]? = some a) :
    ∃ z, l.getLast? = some z := by
  cases l with
  | nil => simp at h
  | cons x xs => exact ⟨_, List.getLast?_cons⟩

/-- C2: `Mapping` returns no error and exactly one network item and one storage item per
input entry, in input order, and each item's by-value target (network name, storage class) is
its own entry's; but the items hold addresses of fields of the two range variables, so read
after `Mapping` returns, every network item shows the source ID and target namespace of the
last network entry and every storage item shows the source ID of the last datastore entry. -/
theorem C2_mapping_items_share_range_variable (r : Builder) (mp : Map)
    (object : ResourceMapping) (mem : Memory) :
    (r.Mapping mp object mem).2.1 = none
    ∧ (r.Mapping mp object mem).1.networkItems.length = mp.Networks.length
    ∧ (r.Mapping mp object mem).1.storageItems.length = mp.Datastores.length
    ∧ (∀ (i : Nat) (e : NetworkPair), mp.Networks[i]? = some e →
        ∃ item, (r.Mapping mp object mem).1.networkItems[i]? = some item
          ∧ item.Target.Name = e.Destination.Name
          ∧ (r.Mapping mp object mem).2.2.sourceID item.Source
              = mp.Networks.getLast?.map (·.Source.ID)
          ∧ (r.Mapping mp object mem).2.2.targetNamespace item.Target
              = mp.Networks.getLast?.map (·.Destination.Namespace))
    ∧ (∀ (i : Nat) (e : StoragePair), mp.Datastores[i]? = some e →
        ∃ item, (r.Mapping mp object mem).1.storageItems[i]? = some item
          ∧ item.Target.Name = e.Destination.StorageClass
          ∧ (r.Mapping mp object mem).2.2.sourceID item.Source
              = mp.Datastores.getLast?.map (·.Source.ID)) := by
  obtain ⟨h0, h1, h2, h3, h4⟩ := mapping_result r mp object mem
  refine ⟨h0, by simp [h1], by simp [h2], ?_, ?_⟩
  · intro i e he
    obtain ⟨z, hz⟩ := getLast?_of_getElem? mp.Networks i e he
    refine ⟨networkItem mem.networks.length e, by simp [h1, List.getElem?_map, he], rfl, ?_, ?_⟩
    · simp [Memory.sourceID, networkItem, Memory.load, h3, hz]
    · simp [Memory.targetNamespace, networkItem, Memory.load, h3, hz]
  · intro i e he
    obtain ⟨z, hz⟩ := getLast?_of_getElem? mp.Datastores i e he
    refine ⟨storageItem mem.datastores.length e, by simp [h2, List.getElem?_map, he], rfl, ?_⟩
    simp [Memory.sourceID, storageItem, Memory.load, h4, hz]

/-- C2 witness: two networks `network-1` and `network-2`; after the call the first item
shows source ID `network-2` and namespace `ns-b`, next to its own name `net-a`. -/
theorem C2_mapping_items_share_range_variable_witness :
    exampleMap.Networks[0]?
      = some { Source := { ID := "network-1" },
               Destination := { Namespace := "ns-a", Name := "net-a" } }
    ∧ ∃ item,
        ((exampleBuilder ({}, 200, none) ({}, none)).Mapping exampleMap {} {}).1.networkItems[0]?
          = some item
        ∧ item.Target.Name = "net-a"
        ∧ ((exampleBuilder ({}, 200, none) ({}, none)).Mapping exampleMap {} {}).2.2.sourceID
            item.Source = some "network-2"
        ∧ ((exampleBuilder ({}, 200, none) ({}, none)).Mapping exampleMap {} {}).2.2.targetNamespace
            item.Target = some "ns-b" :=
  ⟨rfl, (C2_mapping_items_share_range_variable (exampleBuilder ({}, 200, none) ({}, none))
    exampleMap {} {}).2.2.2.1 0 _ rfl⟩

/-! ## Properties of `Reconcile` -/

/-- After `SetCondition`, the first condition of that type is the one set. -/
theorem findCondition_setCondition (cs : Conditions) (c : Condition) :
    libcnd.FindCondition (libcnd.SetCondition cs c) c.Type_ = some c := by
  induction cs with
  | nil => simp [libcnd.SetCondition, libcnd.FindCondition]
  | cons x xs ih =>
    by_cases hx : x.Type_ = c.Type_
    · simp [libcnd.SetCondition, libcnd.FindCondition, hx]
    · simp only [libcnd.FindCondition] at ih
      simp [libcnd.SetCondition, libcnd.FindCondition, hx, ih]

/-- After `SetReady(true, _)` the status is Ready. -/
theorem isReady_setReady (cs : Conditions) (message : String) :
    libcnd.IsReady (libcnd.SetReady cs true message) = true := by
  have h := findCondition_setCondition cs
    { Type_ := libcnd.Ready, Status := libcnd.True_, Category := libcnd.Required
      Message := message }
  simp only [libcnd.IsReady, libcnd.SetReady, if_true]
  rw [h]
  simp

/-- What `Reconcile` hands to the status update once fetch and validation succeed. -/
theorem reconcile_updates (r : Reconciler) (request : ObjectKey) (m : Migration)
    (status : MigrationStatus) (hGet : r.Get request {} = (m, none))
    (hVal : r.validate m = (status, none)) :
    (r.Reconcile request).updates
      = [observeGeneration (r.readyCondition { m with Status := status })] := by
  simp only [Reconciler.Reconcile, hGet, hVal]
  cases r.Update (observeGeneration (r.readyCondition { m with Status := status })) <;> rfl

/-- Setting a condition of another category raises no condition of category `category`. -/
theorem hasConditionCategory_setCondition (cs : Conditions) (c : Condition)
    (category : String) (hc : c.Category ≠ category)
    (h : libcnd.HasConditionCategory cs category = false) :
    libcnd.HasConditionCategory (libcnd.SetCondition cs c) category = false := by
  induction cs with
  | nil => simp [libcnd.SetCondition, libcnd.HasConditionCategory, hc]
  | cons x xs ih =>
    simp only [libcnd.HasConditionCategory, List.any_cons, Bool.or_eq_false_iff] at h ih ⊢
    by_cases hx : x.Type_ = c.Type_
    · simp only [libcnd.SetCondition, hx, beq_self_eq_true, if_true, List.any_cons,
        Bool.or_eq_false_iff]
      exact ⟨by simp [hc], h.2⟩
    · simp only [libcnd.SetCondition, beq_iff_eq, hx, if_false, List.any_cons,
        Bool.or_eq_false_iff]
      exact ⟨h.1, ih h.2⟩

/-- `SetReady(true, _)` on conditions without a blocker raises no blocker. -/
theorem hasBlockerCondition_setReady (cs : Conditions) (message : String)
    (h : libcnd.HasBlockerCondition cs = false) :
    libcnd.HasBlockerCondition (libcnd.SetReady cs true message) = false := by
  simp only [libcnd.HasBlockerCondition, Bool.or_eq_false_iff] at h ⊢
  simp only [libcnd.SetReady, if_true]
  have hCritical : libcnd.Required ≠ libcnd.Critical := by decide
  have hError : libcnd.Required ≠ libcnd.Error_ := by decide
  exact ⟨hasConditionCategory_setCondition cs _ _ hCritical h.1,
    hasConditionCategory_setCondition cs _ _ hError h.2⟩

/-- C3: when fetch and validation succeed, and validation has left Ready unset or false
wherever it set a blocking condition (the spec's account of the absent `validate`),
`Reconcile` hands exactly one status to the update, and its Ready is true if and only if no
blocking condition is set on the status after validation; the handed status has a blocking
condition exactly when the validated one has. In particular, when the fetched status carries
Ready = true and validation now sets a blocking condition, the handed Ready is not true.
`Reconcile` itself sets Ready exactly when no blocking condition is set, and otherwise hands
over the conditions as validation left them. -/
theorem C3_ready_iff_unblocked (r : Reconciler) (request : ObjectKey) (m : Migration)
    (status : MigrationStatus) (hGet : r.Get request {} = (m, none))
    (hVal : r.validate m = (status, none))
    (hSpec : readyComputedByValidation status = true) :
    ∃ handed, (r.Reconcile request).updates = [handed]
      ∧ (libcnd.IsReady handed.Status.Conditions = true ↔
          libcnd.HasBlockerCondition status.Conditions = false)
      ∧ libcnd.HasBlockerCondition handed.Status.Conditions
          = libcnd.HasBlockerCondition status.Conditions
      ∧ (libcnd.IsReady m.Status.Conditions = true →
          libcnd.HasBlockerCondition status.Conditions = true →
          libcnd.IsReady handed.Status.Conditions = false)
      ∧ (libcnd.HasBlockerCondition status.Conditions = false →
          handed.Status.Conditions = libcnd.SetReady status.Conditions true r.ReadyMessage)
      ∧ (libcnd.HasBlockerCondition status.Conditions = true →
          handed.Status.Conditions = status.Conditions) := by
  refine ⟨_, reconcile_updates r request m status hGet hVal, ?_⟩
  cases hb : libcnd.HasBlockerCondition status.Conditions with
  | false =>
    have hc : (observeGeneration (r.readyCondition { m with Status := status })).Status.Conditions
        = libcnd.SetReady status.Conditions true r.ReadyMessage := by
      simp [observeGeneration, Reconciler.readyCondition, hb]
    rw [hc, isReady_setReady, hasBlockerCondition_setReady _ _ hb]
    simp
  | true =>
    have hc : (observeGeneration (r.readyCondition { m with Status := status })).Status.Conditions
        = status.Conditions := by
      simp [observeGeneration, Reconciler.readyCondition, hb]
    have hr : libcnd.IsReady status.Conditions = false := by
      simpa [readyComputedByValidation, hb] using hSpec
    rw [hc, hb, hr]
    simp

/-- C3 witness: the stored status is Ready from an earlier pass; validation drops Ready and
raises `PlanNotValid`; the handed status is blocked and not Ready. -/
theorem C3_ready_iff_unblocked_witness :
    libcnd.IsReady exampleMigration.Status.Conditions = true
    ∧ ∃ handed, ((exampleReconciler blockPlanNotValid).Reconcile
        { Namespace := "ns", Name := "migration-1" }).updates = [handed]
      ∧ libcnd.HasBlockerCondition handed.Status.Conditions = true
      ∧ libcnd.IsReady handed.Status.Conditions = false := by
  obtain ⟨handed, h1, _, h3, h4, _, _⟩ := C3_ready_iff_unblocked
    (exampleReconciler blockPlanNotValid) { Namespace := "ns", Name := "migration-1" }
    exampleMigration (blockPlanNotValid exampleMigration).1 rfl rfl (by decide)
  exact ⟨by decide, handed, h1, by rw [h3]; decide, h4 (by decide) (by decide)⟩

/-- The run ends in a returned frame whose results and status updates are those of
`Reconcile`. -/
theorem execution_returns (r : Reconciler) (request : ObjectKey) :
    ∃ f, (r.execution request).getLast? = some f
      ∧ f.pc = .done
      ∧ f.result = (r.Reconcile request).result
      ∧ f.err = (r.Reconcile request).err
      ∧ f.updates = (r.Reconcile request).updates := by
  rcases hG : r.Get request {} with ⟨m, _ | e⟩
  · rcases hV : r.validate m with ⟨status, _ | e⟩
    · cases hU : r.Update (observeGeneration (r.readyCondition { m with Status := status })) <;>
      cases hb : libcnd.HasBlockerCondition status.Conditions <;>
      simp [Reconciler.execution, Reconciler.frames, Reconciler.step, Frame.start,
        Reconciler.Reconcile, hG, hV, hb, observeGeneration, Reconciler.readyCondition] at hU ⊢ <;>
      simp [hU]
    · simp [Reconciler.execution, Reconciler.frames, Reconciler.step, Frame.start,
        Reconciler.Reconcile, hG, hV]
  · cases hn : errors.IsNotFound e <;>
    simp [Reconciler.execution, Reconciler.frames, Reconciler.step, Frame.start,
      Reconciler.Reconcile, hG, hn]

/-- C9: when fetch and validation succeed, the one object handed to the status update has
`ObservedGeneration` equal to the `Generation` of the fetched resource, and the run executes
fetch, validation, Ready block, assignment, status update in that order: the Ready block
runs on an object whose `ObservedGeneration` is still the one validation left, it sets Ready
to true when no blocking condition is set and changes nothing otherwise, and the assignment
then acts on that object, keeping the computed conditions. -/
theorem C9_observed_generation_after_ready (r : Reconciler) (request : ObjectKey)
    (m : Migration) (status : MigrationStatus) (hGet : r.Get request {} = (m, none))
    (hVal : r.validate m = (status, none)) :
    ∃ ready handed : Migration,
      (r.Reconcile request).updates = [handed]
      ∧ handed.Status.ObservedGeneration = m.Generation
      ∧ (r.execution request).map (fun f => (f.pc, f.migration))
          = [ (.fetch, {}), (.validate, m), (.readyCondition, { m with Status := status }),
              (.observedGeneration, ready), (.statusUpdate, handed), (.done, handed) ]
      ∧ (r.execution request).map (fun f => f.updates)
          = [ [], [], [], [], [], [handed] ]
      ∧ ready.Status.ObservedGeneration = status.ObservedGeneration
      ∧ ready.Generation = m.Generation
      ∧ ready.Status.Conditions
          = (if libcnd.HasBlockerCondition status.Conditions then status.Conditions
             else libcnd.SetReady status.Conditions true r.ReadyMessage)
      ∧ (libcnd.HasBlockerCondition status.Conditions = false →
          libcnd.IsReady ready.Status.Conditions = true)
      ∧ handed = { ready with Status := { ready.Status with
                     ObservedGeneration := ready.Generation } } := by
  refine ⟨r.readyCondition { m with Status := status },
    observeGeneration (r.readyCondition { m with Status := status }),
    reconcile_updates r request m status hGet hVal, ?_, ?_, ?_, ?_, ?_, ?_, ?_, rfl⟩
  · simp only [observeGeneration, Reconciler.readyCondition]
    split <;> rfl
  · cases hU : r.Update (observeGeneration (r.readyCondition { m with Status := status })) <;>
    cases hb : libcnd.HasBlockerCondition status.Conditions <;>
    simp [Reconciler.execution, Reconciler.frames, Reconciler.step, Frame.start,
      hGet, hVal, hb, observeGeneration, Reconciler.readyCondition] at hU ⊢ <;>
    simp [hU]
  · cases hU : r.Update (observeGeneration (r.readyCondition { m with Status := status })) <;>
    cases hb : libcnd.HasBlockerCondition status.Conditions <;>
    simp [Reconciler.execution, Reconciler.frames, Reconciler.step, Frame.start,
      hGet, hVal, hb, observeGeneration, Reconciler.readyCondition] at hU ⊢ <;>
    simp [hU]
  · simp only [Reconciler.readyCondition]
    split <;> rfl
  · simp only [Reconciler.readyCondition]
    split <;> rfl
  · cases hb : libcnd.HasBlockerCondition status.Conditions <;>
    simp [Reconciler.readyCondition, hb]
  · intro hb
    have : (r.readyCondition { m with Status := status }).Status.Conditions
        = libcnd.SetReady status.Conditions true r.ReadyMessage := by
      simp [Reconciler.readyCondition, hb]
    rw [this]
    exact isReady_setReady _ _

/-- C9 witness: the stored Migration has generation 2 and observed generation 1; the object
leaving the Ready block is Ready and still observed at 1, the handed object is observed
at 2. -/
theorem C9_observed_generation_after_ready_witness :
    ∃ ready handed : Migration,
      ((exampleReconciler passValidation).Reconcile
        { Namespace := "ns", Name := "migration-1" }).updates = [handed]
      ∧ handed.Status.ObservedGeneration = 2
      ∧ ready.Status.ObservedGeneration = 1
      ∧ libcnd.IsReady ready.Status.Conditions = true
      ∧ ((exampleReconciler passValidation).execution
          { Namespace := "ns", Name := "migration-1" }).map (fun f => f.pc)
          = [.fetch, .validate, .readyCondition, .observedGeneration, .statusUpdate, .done] := by
  obtain ⟨ready, handed, h1, h2, h3, _, h5, _, _, h8, _⟩ :=
    C9_observed_generation_after_ready
      (exampleReconciler passValidation) { Namespace := "ns", Name := "migration-1" }
      exampleMigration { Conditions := [], ObservedGeneration := 1 } rfl rfl
  refine ⟨ready, handed, h1, h2, h5, h8 rfl, ?_⟩
  have := congrArg (List.map Prod.fst) h3
  simpa [List.map_map, Function.comp_def] using this

/-- C10: when the fetch succeeds and validation returns an error, `Reconcile` hands nothing
to the status update, so the stored resource is not written, and returns `Requeue = true`
with a nil error. -/
theorem C10_validation_error_requeues (r : Reconciler) (request : ObjectKey) (m : Migration)
    (status : MigrationStatus) (e : Error) (hGet : r.Get request {} = (m, none))
    (hVal : r.validate m = (status, some e)) :
    (r.Reconcile request).updates = []
    ∧ (r.Reconcile request).result.Requeue = true
    ∧ (r.Reconcile request).err = none := by
  simp [Reconciler.Reconcile, hGet, hVal]

/-- C10 witness: validation fails on the stored Migration. -/
theorem C10_validation_error_requeues_witness :
    ((exampleReconciler failValidation).Reconcile
        { Namespace := "ns", Name := "migration-1" }).updates = []
    ∧ ((exampleReconciler failValidation).Reconcile
        { Namespace := "ns", Name := "migration-1" }).result.Requeue = true
    ∧ ((exampleReconciler failValidation).Reconcile
        { Namespace := "ns", Name := "migration-1" }).err = none :=
  C10_validation_error_requeues (exampleReconciler failValidation)
    { Namespace := "ns", Name := "migration-1" } exampleMigration exampleMigration.Status
    (.plain "plan lookup failed") rfl rfl

end VirtController
